import Mathlib

/-!
Shallow embedding of the annotation-placement / styling logic of
`src/cmsstyle.C` (cms-cat/cmsstyle, C++ version), together with proofs of
the specified properties.

Conventions used throughout:
* C++ `Double_t` values are modelled as `ℚ` (all the arithmetic involved is
  exact on the inputs considered);
* C++ `Int_t` is modelled as `ℤ`, with `Int.tdiv`/`Int.tmod` for the C++
  truncating `/` and `%`;
* `std::string` is modelled as `String`;
* fallible operations (out-of-bounds vector access, missing primitives)
  return `Option`;
* diagnostic messages written to `std::cerr` are modelled as a `Bool` flag
  in the result (true = a warning/error was reported).
-/

namespace cmsstyle

/-- Substring containment, modelling `std::string::find(pat) != npos`. -/
def containsSubstr (s pat : String) : Bool := decide (pat.data <:+: s.data)

/-- Truncation toward zero, modelling a C++ cast `Int_t(x)` of a `Double_t`. -/
def cppInt (q : ℚ) : ℤ := if 0 ≤ q then ⌊q⌋ else ⌈q⌉

/-- Lower-casing of one ASCII character, modelling `::tolower` (C locale). -/
def cppToLower (c : Char) : Char :=
  if 'A' ≤ c ∧ c ≤ 'Z' then Char.ofNat (c.toNat + 32) else c

/-- Lower-casing of a string, modelling
`std::transform(a.begin(),a.end(),a.begin(),::tolower)` in `changeStatsBox`. -/
def strToLower (s : String) : String := String.mk (s.data.map cppToLower)

/-! ## CMS_lumi : decoding of the integer position code (cmsstyle.C:418-421) -/

/-- Local constant `relPosX = 0.035` of `CMS_lumi` (cmsstyle.C:414). -/
def relPosX : ℚ := 7 / 200

/-- Local constant `relPosY = 0.035` of `CMS_lumi` (cmsstyle.C:415). -/
def relPosY : ℚ := 7 / 200

/-- Local constant `relExtraDY = 1.2` of `CMS_lumi` (cmsstyle.C:416). -/
def relExtraDY : ℚ := 6 / 5

/-- `Bool_t outOfFrame = (int(iPosX / 10) == 0);` (cmsstyle.C:418). -/
def outOfFrame (iPosX : ℤ) : Bool := iPosX.tdiv 10 = 0

/-- `Int_t alignX_ = max(int(iPosX / 10), 1);` (cmsstyle.C:419). -/
def alignX (iPosX : ℤ) : ℤ := max (iPosX.tdiv 10) 1

/-- `Int_t alignY_ = (iPosX==0)?1:3;` (cmsstyle.C:420). -/
def alignY (iPosX : ℤ) : ℤ := if iPosX = 0 then 1 else 3

/-- `Int_t align_ = 10 * alignX_ + alignY_;` (cmsstyle.C:421). -/
def align (iPosX : ℤ) : ℤ := 10 * alignX iPosX + alignY iPosX

/-- The valid position codes named by the specification. -/
def validPositionCodes : List ℤ := [0, 1, 2, 3, 11, 12, 13, 21, 22, 23, 31, 32, 33]

/-! ## CMS_lumi : X anchor of the wordmark / extra-text block (cmsstyle.C:442-445)

```
Double_t posX_ = 0;
if (iPosX % 10 <= 1) posX_ = l + relPosX * (1 - l - r);
else if (iPosX % 10 == 2) posX_ = l + 0.5 * (1 - l - r);
else if (iPosX % 10 == 3) posX_ = 1 - r - relPosX * (1 - l - r);
```
-/

/-- The anchor `posX_` as computed by `CMS_lumi` from the position code and the
left/right pad margins. -/
def cmsMessagePosX (iPosX : ℤ) (l r : ℚ) : ℚ :=
  if iPosX.tmod 10 ≤ 1 then l + relPosX * (1 - l - r)
  else if iPosX.tmod 10 = 2 then l + (1 / 2) * (1 - l - r)
  else if iPosX.tmod 10 = 3 then 1 - r - relPosX * (1 - l - r)
  else 0

/-! ## CMS_lumi : Y anchors of the stacked in-frame text lines (cmsstyle.C:447,477-492)

In the in-frame case with no graphical logo configured the code is:

```
Double_t posY_ = 1 - t - relPosY * (1 - t - b);
...
if (cmsText.length()!=0) {
  drawText(cmsText.c_str(),posX_,posY_,...);
  posY_ -= relExtraDY * cmsTextSize * t;
}
if (extraText.length()!=0) {
  drawText(extraText.c_str(),posX_,posY_,...);
}
else posY_ += relExtraDY * cmsTextSize * t;
for (UInt_t i=0; i<additionalInfo.size(); ++i) {
  drawText(additionalInfo[i].c_str(),posX_,
           posY_ - 0.004 - (relExtraDY * extraOverCmsTextSize * cmsTextSize * t / 2 + 0.02) * (i + 1),
           ...);
}
```

`inFrameTextYs` returns, in drawing order, the Y anchor of every text line
actually drawn (wordmark, then extra text, then the additional-info lines). -/

/-- Y anchors of the stacked text lines drawn by the in-frame, no-logo branch of
`CMS_lumi`.  `t`/`b` are the top/bottom pad margins, `cmsTextSize` and
`extraOverCmsTextSize` the global text-size parameters, and the two flags tell
whether `cmsText` resp. `extraText` are non-empty. -/
def inFrameTextYs (t b cmsTextSize extraOverCmsTextSize : ℚ)
    (hasCmsText hasExtraText : Bool) (nAdditional : ℕ) : List ℚ :=
  let posY0 := 1 - t - relPosY * (1 - t - b)
  let cmsLines := if hasCmsText then [posY0] else []
  let posY1 := if hasCmsText then posY0 - relExtraDY * cmsTextSize * t else posY0
  let extraLines := if hasExtraText then [posY1] else []
  let posY2 := if hasExtraText then posY1 else posY1 + relExtraDY * cmsTextSize * t
  cmsLines ++ extraLines ++ (List.range nAdditional).map
    (fun i : ℕ => posY2 - 1 / 250 -
      (relExtraDY * extraOverCmsTextSize * cmsTextSize * t / 2 + 1 / 50) * ((i : ℚ) + 1))

/-! ## Global CMS descriptor state and its setters -/

/-- The part of the process-wide CMSStyle state touched by `SetExtraText`:
the globals `cmsText`, `extraText`, `useCmsLogo` and `extraTextFont`. -/
structure CmsState where
  cmsText : String
  extraText : String
  useCmsLogo : String
  extraTextFont : ℤ

/-- Keyword expansion performed at the start of `SetExtraText`
(cmsstyle.C:264-270). -/
def resolveExtraText (text : String) : String :=
  if text = "p" then "Preliminary"
  else if text = "s" then "Simulation"
  else if text = "su" then "Supplementary"
  else if text = "wip" then "Work in progress"
  else if text = "pw" then "Private work (CMS data)"
  else text

/-- `SetExtraText` (cmsstyle.C:260-281): expands the shorthand keywords, then,
if the resolved text contains "Private", clears the wordmark text and the logo
reference; finally updates the extra-text font when `font != 0`. -/
def SetExtraText (text : String) (font : ℤ) (st : CmsState) : CmsState :=
  let e := resolveExtraText text
  let st := { st with extraText := e }
  let st := if containsSubstr e "Private" then { st with cmsText := "", useCmsLogo := "" } else st
  if font ≠ 0 then { st with extraTextFont := font } else st

/-- `SetEnergy` (cmsstyle.C:176-189).  Returns the new `cms_energy` string and
a flag telling whether the "Unsupported value" error message was printed. -/
def SetEnergy (energy : ℚ) (unit : String) : String × Bool :=
  if energy = 0 then (unit, false)
  else if |energy - 13| < 1 / 1000 then ("13 " ++ unit, false)
  else if |energy - 68 / 5| < 1 / 1000 then ("13.6 " ++ unit, false)
  else ("???? " ++ unit, true)

/-! ## SetLumi and the numeric formatting it relies on

`SetLumi` (cmsstyle.C:192-213) writes the luminosity value through a
`std::stringstream`, optionally switching it to `std::fixed` with
`std::setprecision(round_lumi)` first.  The two formatting routines of the
C++ standard stream library are modelled below for non-negative rationals:
`formatFixed` is fixed-point notation with `p` digits after the point, and
`formatDefault` is the default `operator<<(double)` output (6 significant
digits, general format, trailing zeros stripped, scientific notation when the
decimal exponent is below -4 or at least 6).  Rounding is modelled as round
half up. -/

/-- Digits of `n` in fixed-point notation with `p` digits after the decimal
point (no decimal point at all when `p = 0`, as in C++), where `n` is the
value already scaled by `10^p`. -/
def fixedOfNat (n : ℕ) (p : ℕ) : String :=
  let ds : List Char := Nat.toDigits 10 n
  let ds := List.replicate (p + 1 - ds.length) '0' ++ ds
  if p = 0 then String.mk ds
  else String.mk (ds.take (ds.length - p)) ++ "." ++ String.mk (ds.drop (ds.length - p))

/-- Fixed-point formatting of a rational, as done by
`stream << std::fixed << std::setprecision(p) << lumi`. -/
def formatFixed (q : ℚ) (p : ℕ) : String :=
  if q < 0 then "-" ++ fixedOfNat (⌊-q * (10 : ℚ) ^ p + 1 / 2⌋).toNat p
  else fixedOfNat (⌊q * (10 : ℚ) ^ p + 1 / 2⌋).toNat p

/-- Removes the trailing `'0'` characters of a digit list. -/
def stripTrailingZeros (ds : List Char) : List Char :=
  (ds.reverse.dropWhile (fun c => c = '0')).reverse

/-- Fuel-driven search for the smallest `k ≥ 1` with `q * 10^k ≥ 1`
(for `0 < q < 1`); `q.den` is always enough fuel. -/
def negExpAux : ℕ → ℚ → ℕ
  | 0, _ => 1
  | fuel + 1, q => if 1 ≤ q * 10 then 1 else negExpAux fuel (q * 10) + 1

/-- Decimal exponent of a positive rational: the `e` with `10^e ≤ q < 10^(e+1)`. -/
def decExp (q : ℚ) : ℤ :=
  if 1 ≤ q then ((Nat.toDigits 10 ⌊q⌋.toNat).length : ℤ) - 1
  else -(negExpAux q.den q : ℤ)

/-- Six-significant-digit decimal mantissa (as a 6-digit natural) and decimal
exponent of a positive rational, with carry into the exponent when rounding
overflows the mantissa. -/
def sixSig (q : ℚ) : ℕ × ℤ :=
  let e := decExp q
  let m := (⌊q * (10 : ℚ) ^ (5 - e) + 1 / 2⌋).toNat
  if 10 ^ 6 ≤ m then (m / 10, e + 1) else (m, e)

/-- Default stream formatting of a positive rational (C++ `%g`-like output with
6 significant digits). -/
def formatDefaultPos (q : ℚ) : String :=
  let me := sixSig q
  let ds := Nat.toDigits 10 me.1
  let ds := List.replicate (6 - ds.length) '0' ++ ds
  let e := me.2
  if -4 ≤ e ∧ e < 6 then
    if 0 ≤ e then
      let ip := ds.take (e.toNat + 1)
      let fp := stripTrailingZeros (ds.drop (e.toNat + 1))
      String.mk ip ++ (if fp.isEmpty then "" else "." ++ String.mk fp)
    else
      let fp := stripTrailingZeros ds
      "0." ++ String.mk (List.replicate (-(e + 1)).toNat '0') ++ String.mk fp
  else
    let fp := stripTrailingZeros (ds.drop 1)
    String.mk (ds.take 1) ++ (if fp.isEmpty then "" else "." ++ String.mk fp) ++ "e" ++
      (if e < 0 then "-" else "+") ++ (if e.natAbs < 10 then "0" else "") ++ Nat.repr e.natAbs

/-- Default stream formatting of a rational, as done by `stream << lumi` with
no manipulators applied. -/
def formatDefault (q : ℚ) : String :=
  if q = 0 then "0"
  else if q < 0 then "-" ++ formatDefaultPos (-q)
  else formatDefaultPos q

/-- The string produced for the luminosity value by the `stringstream` part of
`SetLumi` (cmsstyle.C:205-207): fixed-point with `round_lumi` digits when
`round_lumi>=0 && round_lumi<3`, default formatting otherwise. -/
def lumiValueStr (lumi : ℚ) (round_lumi : ℤ) : String :=
  if 0 ≤ round_lumi ∧ round_lumi < 3 then formatFixed lumi round_lumi.toNat
  else formatDefault lumi

/-- `SetLumi` (cmsstyle.C:192-213): composes the new `cms_lumi` caption from
the run label, the formatted luminosity value, the unit and the
inverse-exponent marker. -/
def SetLumi (lumi : ℚ) (unit run : String) (round_lumi : ℤ) : String :=
  let cms_lumi : String := ""
  let cms_lumi := if 0 < run.length then cms_lumi ++ run else cms_lumi
  if 0 ≤ lumi then
    let cms_lumi := if 0 < cms_lumi.length then cms_lumi ++ ", " else cms_lumi
    cms_lumi ++ lumiValueStr lumi round_lumi ++ (" " ++ unit ++ "^\x7b#minus1\x7d")
  else cms_lumi

/-! ## setRootObjectProperties and the stats-box repositioning -/

/-- The line/fill/marker attributes of a ROOT drawable
(`TAttLine`/`TAttFill`/`TAttMarker`). -/
structure ObjProps where
  lineColor : ℤ := 1
  lineStyle : ℤ := 1
  lineWidth : ℚ := 1
  fillColor : ℤ := 0
  fillStyle : ℤ := 0
  markerColor : ℤ := 1
  markerStyle : ℤ := 20
  markerSize : ℚ := 1

/-- `setRootObjectProperties` (cmsstyle.C:500-517): applies a key/value
configuration map to the drawable attributes.  The C++ `std::map` iterates its
entries in sorted key order; the list argument is taken to be in that order. -/
def setRootObjectProperties (confs : List (String × ℚ)) (o : ObjProps) : ObjProps :=
  confs.foldl (fun o xcnf =>
    if xcnf.1 = "SetLineColor" ∨ xcnf.1 = "LineColor" then
      { o with lineColor := cppInt (xcnf.2 + 1 / 2) }
    else if xcnf.1 = "SetLineStyle" ∨ xcnf.1 = "LineStyle" then
      { o with lineStyle := cppInt (xcnf.2 + 1 / 2) }
    else if xcnf.1 = "SetLineWidth" ∨ xcnf.1 = "LineWidth" then
      { o with lineWidth := xcnf.2 }
    else if xcnf.1 = "SetFillColor" ∨ xcnf.1 = "FillColor" then
      { o with fillColor := cppInt (xcnf.2 + 1 / 2) }
    else if xcnf.1 = "SetFillStyle" ∨ xcnf.1 = "FillStyle" then
      { o with fillStyle := cppInt (xcnf.2 + 1 / 2) }
    else if xcnf.1 = "SetMarkerColor" ∨ xcnf.1 = "MarkerColor" then
      { o with markerColor := cppInt (xcnf.2 + 1 / 2) }
    else if xcnf.1 = "SetMarkerSize" ∨ xcnf.1 = "MarkerSize" then
      { o with markerSize := xcnf.2 }
    else if xcnf.1 = "SetMarkerStyle" ∨ xcnf.1 = "MarkerStyle" then
      { o with markerStyle := cppInt (xcnf.2 + 1 / 2) }
    else o) o

/-- A `TPaveStats` box: its drawable attributes, its four NDC edges, its text
size and the number of content lines (`GetListOfLines()->GetEntries()`). -/
structure StatsBox where
  props : ObjProps
  x1 : ℚ
  y1 : ℚ
  x2 : ℚ
  y2 : ℚ
  textSize : ℚ
  nLines : ℕ

/-- A pad as seen by `changeStatsBox`: its four margins and the `"stats"`
primitive when present. -/
structure Pad where
  leftMargin : ℚ
  rightMargin : ℚ
  topMargin : ℚ
  bottomMargin : ℚ
  statsBox : Option StatsBox

/-- The `TPaveStats` overload of `changeStatsBox` (cmsstyle.C:676-688):
applies the configuration map, then overwrites each NDC edge whose requested
value is not the `-999` "unset" sentinel (the test is `> -998`). -/
def changeStatsBoxStats (pstats : StatsBox) (x1pos y1pos x2pos y2pos : ℚ)
    (confs : List (String × ℚ)) : StatsBox :=
  let pstats := { pstats with props := setRootObjectProperties confs pstats.props }
  let pstats := if -998 < x1pos then { pstats with x1 := x1pos } else pstats
  let pstats := if -998 < y1pos then { pstats with y1 := y1pos } else pstats
  let pstats := if -998 < x2pos then { pstats with x2 := x2pos } else pstats
  if -998 < y2pos then { pstats with y2 := y2pos } else pstats

/-- The symbolic-corner overload of `changeStatsBox` (cmsstyle.C:691-762).
Returns the repositioned stats box (`none` when the pad holds no `"stats"`
primitive) together with a flag telling whether an error message was printed.
On an unrecognized corner token the box is returned unmodified. -/
def changeStatsBoxCorner (pcanv : Pad) (ipos_x1 : String) (xscale yscale : ℚ)
    (confs : List (String × ℚ)) : Option StatsBox × Bool :=
  match pcanv.statsBox with
  | none => (none, true)
  | some stbox =>
    let a := strToLower ipos_x1
    let textsize := if stbox.textSize = 0 then 0 else 6 * (stbox.textSize - 1 / 40)
    let xsize := (1 - pcanv.rightMargin - pcanv.leftMargin) * xscale
    let ysize := (1 - pcanv.bottomMargin - pcanv.topMargin) * yscale
    let yfactor := 1 / 20 + 1 / 20 * (stbox.nLines : ℚ)
    if a = "tr" then
      (some (changeStatsBoxStats stbox
        (1 - pcanv.rightMargin - xsize * (33 / 100) - textsize)
        (1 - pcanv.topMargin - ysize * yfactor - textsize)
        (1 - pcanv.rightMargin - xsize * (3 / 100))
        (1 - pcanv.topMargin - ysize * (3 / 100)) confs), false)
    else if a = "tl" then
      (some (changeStatsBoxStats stbox
        (pcanv.leftMargin + xsize * (3 / 100))
        (1 - pcanv.topMargin - ysize * yfactor - textsize)
        (pcanv.leftMargin + xsize * (33 / 100) + textsize)
        (1 - pcanv.topMargin - ysize * (3 / 100)) confs), false)
    else if a = "bl" then
      (some (changeStatsBoxStats stbox
        (pcanv.leftMargin + xsize * (3 / 100))
        (pcanv.bottomMargin + ysize * (3 / 100))
        (pcanv.leftMargin + xsize * (33 / 100) + textsize)
        (pcanv.bottomMargin + ysize * yfactor + textsize) confs), false)
    else if a = "br" then
      (some (changeStatsBoxStats stbox
        (1 - pcanv.rightMargin - xsize * (33 / 100) - textsize)
        (pcanv.bottomMargin + ysize * (3 / 100))
        (1 - pcanv.rightMargin - xsize * (3 / 100))
        (pcanv.bottomMargin + ysize * yfactor + textsize) confs), false)
    else (some stbox, true)

/-! ## The alternative 2D palette (cmsstyle.C:784-826) -/

/-- The process-wide palette state: the cached color-index list
`usingPalette2D`, the next free ROOT color index (modelling the index that
`TColor::CreateGradientColorTable` returns for a freshly created table), and
the log of gradient tables actually created (one entry per call, recording the
`alpha` passed). -/
structure Palette2DState where
  usingPalette2D : List ℤ
  nextColorIndex : ℤ
  gradientAlphas : List ℚ

/-- `CreateAlternativePalette` (cmsstyle.C:784-809): builds a 200-color
gradient table through `TColor::CreateGradientColorTable` (whose base index is
modelled by the `nextColorIndex` allocator), then clears `usingPalette2D` and
refills it with the 200 consecutive indices `color_table + i`. -/
def CreateAlternativePalette (alpha : ℚ) (s : Palette2DState) : Palette2DState :=
  let num_colors : ℕ := 200
  let color_table := s.nextColorIndex
  { usingPalette2D := (List.range num_colors).map (fun i : ℕ => color_table + (i : ℤ))
    nextColorIndex := color_table + num_colors
    gradientAlphas := s.gradientAlphas ++ [alpha] }

/-- `SetAlternative2DColor` (cmsstyle.C:812-826): generates the alternative
palette only when `usingPalette2D` is empty, then installs the cached list on
the style (and as the histogram contour count).  Returns the new state and the
color list passed to `style->SetPalette`. -/
def SetAlternative2DColor (alpha : ℚ) (s : Palette2DState) : Palette2DState × List ℤ :=
  let s := if s.usingPalette2D = [] then CreateAlternativePalette alpha s else s
  (s, s.usingPalette2D)

/-! ## buildTHStack (cmsstyle.C:863-917) -/

/-- Modelled from the spec: `getPettroffColorSet` lives in `colorsets.H`,
which is not part of the sources at hand; per the specification it returns one
of three fixed curated qualitative color families (six, eight or ten distinct
hand-picked colors), the smallest family whose size is at least the requested
number of series.  The concrete ROOT color indices are placeholders; only
their number and distinctness matter here. -/
def getPettroffColorSet (n : ℕ) : List ℤ :=
  if n ≤ 6 then [300, 301, 302, 303, 304, 305]
  else if n ≤ 8 then [310, 311, 312, 313, 314, 315, 316, 317]
  else [320, 321, 322, 323, 324, 325, 326, 327, 328, 329]

/-- The per-histogram configuration step of the `buildTHStack` loop
(cmsstyle.C:896-907).  For the three color keys the value written is
`colors[ihst]` — read from the `colors` vector given by the caller, not from
the locally fetched color set; an out-of-bounds access (undefined behaviour in
C++) is modelled as `none`.  Note that the source's `MarkerStyle` case really
calls `SetMarkerSize` (cmsstyle.C:906). -/
def setStackHistProps (colors : List ℤ) (ihst : ℕ) (confs : List (String × ℚ))
    (h : ObjProps) : Option ObjProps :=
  confs.foldl (fun acc xcnf => acc.bind (fun o =>
    if xcnf.1 = "SetLineColor" ∨ xcnf.1 = "LineColor" then
      (colors[ihst]?).map (fun c => { o with lineColor := c })
    else if xcnf.1 = "SetFillColor" ∨ xcnf.1 = "FillColor" then
      (colors[ihst]?).map (fun c => { o with fillColor := c })
    else if xcnf.1 = "SetMarkerColor" ∨ xcnf.1 = "MarkerColor" then
      (colors[ihst]?).map (fun c => { o with markerColor := c })
    else if xcnf.1 = "SetLineStyle" ∨ xcnf.1 = "LineStyle" then
      some { o with lineStyle := cppInt (xcnf.2 + 1 / 2) }
    else if xcnf.1 = "SetLineWidth" ∨ xcnf.1 = "LineWidth" then
      some { o with lineWidth := xcnf.2 }
    else if xcnf.1 = "SetFillStyle" ∨ xcnf.1 = "FillStyle" then
      some { o with fillStyle := cppInt (xcnf.2 + 1 / 2) }
    else if xcnf.1 = "SetMarkerSize" ∨ xcnf.1 = "MarkerSize" then
      some { o with markerSize := xcnf.2 }
    else if xcnf.1 = "SetMarkerStyle" ∨ xcnf.1 = "MarkerStyle" then
      some { o with markerSize := xcnf.2 }
    else some o)) (some h)

/-- `buildTHStack` (cmsstyle.C:863-917): when the caller supplies no colors a
curated set is fetched into the local `colorset` — which the rest of the
function never reads (it is bound here exactly as in the source and stays
unused) — and every histogram is then configured through the `confs` loop and
added to the stack in input order.  The result is the stack content in that
order, `none` when a color key in `confs` makes the loop index the empty
`colors` vector out of bounds. -/
def buildTHStack (histos : List ObjProps) (colors : List ℤ)
    (confs : List (String × ℚ)) : Option (List ObjProps) :=
  let _colorset := if colors.length = 0 ∧ 0 < histos.length
    then getPettroffColorSet histos.length else colors
  ((List.range histos.length).zip histos).mapM
    (fun p => setStackHistProps colors p.1 confs p.2)

/-! ## cmsObjectDraw (cmsstyle.C:548-562) -/

/-- The draw option actually used by `cmsObjectDraw`:
`if (prefix.find("SAME")==std::string::npos) prefix=std::string("SAME")+prefix;`. -/
def cmsObjectDrawOpt (opt : String) : String :=
  if containsSubstr opt "SAME" = false then "SAME" ++ opt else opt

/-! ## Concrete states used by the witnesses -/

/-- A sample descriptor state with the default wordmark, a logo and a font. -/
def cmsStateExample : CmsState :=
  { cmsText := "CMS", extraText := "Preliminary", useCmsLogo := "logo.png", extraTextFont := 52 }

/-- A sample stats box. -/
def statsBoxExample : StatsBox :=
  { props := {}, x1 := 1 / 2, y1 := 1 / 2, x2 := 9 / 10, y2 := 9 / 10,
    textSize := 0, nLines := 3 }

/-- A sample pad whose stats box exists. -/
def padWithStats : Pad :=
  { leftMargin := 4 / 25, rightMargin := 1 / 50, topMargin := 1 / 20,
    bottomMargin := 13 / 100, statsBox := some statsBoxExample }

/-- A sample pad with no stats box. -/
def padNoStats : Pad :=
  { leftMargin := 4 / 25, rightMargin := 1 / 50, topMargin := 1 / 20,
    bottomMargin := 13 / 100, statsBox := none }

/-- A sample palette state with a non-empty cache. -/
def paletteStateExample : Palette2DState :=
  { usingPalette2D := [5], nextColorIndex := 6, gradientAlphas := [1] }

/-! ## Theorems -/

/-- C1: for every valid position code, the decoding step of `CMS_lumi`
computes `outOfFrame` true exactly for codes below 10, an `alignX` that always
lies in {1,2,3} (it is `max(code/10, 1)` by definition), `alignY = 1` for code
0 and 3 otherwise, and the combined alignment code `10*alignX + alignY`. -/
theorem CMS_lumi_decode_valid (c : ℤ) (h : c ∈ validPositionCodes) :
    (outOfFrame c = true ↔ c < 10) ∧
    (alignX c = 1 ∨ alignX c = 2 ∨ alignX c = 3) ∧
    alignY c = (if c = 0 then 1 else 3) ∧
    align c = 10 * alignX c + alignY c := by
  fin_cases h <;> refine ⟨by decide, by decide, by decide, rfl⟩

/-- C1 witness: instantiation at the valid position code 11. -/
theorem CMS_lumi_decode_valid_witness :
    (11 : ℤ) ∈ validPositionCodes ∧
    ((outOfFrame 11 = true ↔ (11 : ℤ) < 10) ∧
     (alignX 11 = 1 ∨ alignX 11 = 2 ∨ alignX 11 = 3) ∧
     alignY 11 = (if (11 : ℤ) = 0 then 1 else 3) ∧
     align 11 = 10 * alignX 11 + alignY 11) :=
  ⟨by decide, CMS_lumi_decode_valid 11 (by decide)⟩

/-- C2 counterexample: at position code 12 (tens digit 1, hence "left
alignment zone" in the claim's reading) with margins l = r = 1/10, the code
computes the center-formula anchor `l + 0.5*(1-l-r) = 1/2`, not the claimed
left-formula anchor `l + 0.035*(1-l-r)`. -/
theorem cmsMessagePosX_tens_digit_false :
    cmsMessagePosX 12 (1 / 10) (1 / 10) = 1 / 2 ∧
    ¬ cmsMessagePosX 12 (1 / 10) (1 / 10) =
        1 / 10 + relPosX * (1 - 1 / 10 - 1 / 10) := by
  have h2 : (12 : ℤ).tmod 10 = 2 := by decide
  constructor
  · rw [cmsMessagePosX, h2]
    norm_num
  · rw [cmsMessagePosX, h2]
    norm_num [relPosX]

/-- C2 amended: the X anchor `posX_` computed by `CMS_lumi` for the wordmark /
extra-text block is `l + 0.035*(1-l-r)` when the ones digit of the position
code satisfies `iPosX % 10 <= 1`, `l + 0.5*(1-l-r)` when `iPosX % 10 == 2`,
and `1 - r - 0.035*(1-l-r)` when `iPosX % 10 == 3`: the dispatch is on the
ones digit of the position code, not on its tens digit. -/
theorem cmsMessagePosX_ones_digit (iPosX : ℤ) (l r : ℚ) :
    (iPosX.tmod 10 ≤ 1 → cmsMessagePosX iPosX l r = l + relPosX * (1 - l - r)) ∧
    (iPosX.tmod 10 = 2 → cmsMessagePosX iPosX l r = l + (1 / 2) * (1 - l - r)) ∧
    (iPosX.tmod 10 = 3 → cmsMessagePosX iPosX l r = 1 - r - relPosX * (1 - l - r)) := by
  refine ⟨fun h => ?_, fun h => ?_, fun h => ?_⟩ <;> rw [cmsMessagePosX]
  · rw [if_pos h]
  · rw [if_neg (by omega), if_pos h]
  · rw [if_neg (by omega), if_neg (by omega), if_pos h]

/-- C2 amended witness: instantiation at position code 12 with margins
l = r = 1/10. -/
theorem cmsMessagePosX_ones_digit_witness :
    (12 : ℤ).tmod 10 = 2 ∧
    cmsMessagePosX 12 (1 / 10) (1 / 10) = 1 / 10 + (1 / 2) * (1 - 1 / 10 - 1 / 10) :=
  ⟨by decide, (cmsMessagePosX_ones_digit 12 (1 / 10) (1 / 10)).2.1 (by decide)⟩

/-- C3 counterexample: with t = 0.07, b = 0.13, cmsTextSize = 0.75,
extraOverCmsTextSize = 0.76 and one additional info line, the three stacked
lines are drawn at Y = 0.902, 0.839 and 0.79106; the claimed uniform descent
by `1.2*cmsTextSize*t = 0.063` per line would instead put the third line at
0.776, so the additional info line does not descend by that step. -/
theorem inFrameTextYs_uniform_descent_false :
    inFrameTextYs (7 / 100) (13 / 100) (3 / 4) (19 / 25) true true 1 =
      [451 / 500, 839 / 1000, 39553 / 50000] ∧
    ¬ inFrameTextYs (7 / 100) (13 / 100) (3 / 4) (19 / 25) true true 1 =
      [451 / 500, 839 / 1000, 97 / 125] := by
  have h : inFrameTextYs (7 / 100) (13 / 100) (3 / 4) (19 / 25) true true 1 =
      [451 / 500, 839 / 1000, 39553 / 50000] := by
    simp only [inFrameTextYs, relPosY, relExtraDY, if_true, List.range_succ, List.range_zero,
      List.nil_append, List.map_cons, List.map_nil, Nat.cast_zero, List.cons_append]
    norm_num
  refine ⟨h, ?_⟩
  rw [h]
  simp only [List.cons.injEq, and_true]
  norm_num

/-- C3 amended: in the in-frame text case of `CMS_lumi` (no graphical logo),
the wordmark is drawn at `1 - t - 0.035*(1-t-b)` and the extra text descends
from it by `1.2*cmsTextSize*t`; each additional info line i (counting from 1)
is then placed at the extra-text Y minus `0.004` minus
`(1.2*extraOverCmsTextSize*cmsTextSize*t/2 + 0.02)*i` — i.e. the additional
info lines descend by the constant `0.6*extraOverCmsTextSize*cmsTextSize*t +
0.02` per line after a one-time extra offset of `0.004`, not by
`1.2*cmsTextSize*t`. -/
theorem inFrameTextYs_layout (t b s e : ℚ) (n : ℕ) :
    (inFrameTextYs t b s e true true n).length = 2 + n ∧
    (inFrameTextYs t b s e true true n)[0]? = some (1 - t - relPosY * (1 - t - b)) ∧
    (inFrameTextYs t b s e true true n)[1]? =
      some (1 - t - relPosY * (1 - t - b) - relExtraDY * s * t) ∧
    (∀ i : ℕ, i < n →
      (inFrameTextYs t b s e true true n)[i + 2]? =
        some (1 - t - relPosY * (1 - t - b) - relExtraDY * s * t - 1 / 250 -
          (relExtraDY * e * s * t / 2 + 1 / 50) * (i + 1))) := by
  refine ⟨?_, ?_, ?_, fun i hi => ?_⟩
  · simp only [inFrameTextYs, if_true, List.cons_append, List.nil_append, List.length_cons,
      List.length_map, List.length_range]
    omega
  · simp [inFrameTextYs]
  · simp [inFrameTextYs]
  · simp only [inFrameTextYs, if_true, List.cons_append, List.nil_append,
      List.getElem?_cons_succ, List.getElem?_map, List.getElem?_range hi, Option.map_some']

/-- C3 amended witness: instantiation at t = 0.07, b = 0.13, cmsTextSize =
0.75, extraOverCmsTextSize = 0.76, one additional info line, line index 0. -/
theorem inFrameTextYs_layout_witness :
    0 < 1 ∧
    (inFrameTextYs (7 / 100) (13 / 100) (3 / 4) (19 / 25) true true 1)[0 + 2]? =
      some (1 - 7 / 100 - relPosY * (1 - 7 / 100 - 13 / 100) -
        relExtraDY * (3 / 4) * (7 / 100) - 1 / 250 -
        (relExtraDY * (19 / 25) * (3 / 4) * (7 / 100) / 2 + 1 / 50) * (0 + 1)) :=
  ⟨by decide,
   (inFrameTextYs_layout (7 / 100) (13 / 100) (3 / 4) (19 / 25) 1).2.2.2 0 (by decide)⟩

/-- C4: `SetExtraText` resolves its input through the five shorthand-keyword
expansions (in particular "pw" becomes the canonical private-work phrase), and
exactly when the resolved text contains "Private" it additionally clears the
wordmark text and the logo reference; otherwise both are left unchanged. -/
theorem SetExtraText_spec (text : String) (font : ℤ) (st : CmsState) :
    (SetExtraText text font st).extraText = resolveExtraText text ∧
    (resolveExtraText "p" = "Preliminary" ∧ resolveExtraText "s" = "Simulation" ∧
     resolveExtraText "su" = "Supplementary" ∧ resolveExtraText "wip" = "Work in progress" ∧
     resolveExtraText "pw" = "Private work (CMS data)") ∧
    (containsSubstr (resolveExtraText text) "Private" = true →
      (SetExtraText text font st).cmsText = "" ∧ (SetExtraText text font st).useCmsLogo = "") ∧
    (containsSubstr (resolveExtraText text) "Private" = false →
      (SetExtraText text font st).cmsText = st.cmsText ∧
      (SetExtraText text font st).useCmsLogo = st.useCmsLogo) := by
  refine ⟨?_, ⟨by decide, by decide, by decide, by decide, by decide⟩,
    fun hp => ⟨?_, ?_⟩, fun hp => ⟨?_, ?_⟩⟩
  case refine_1 =>
    simp only [SetExtraText]
    split <;> first | rfl | (split <;> rfl)
  all_goals
    simp only [SetExtraText, hp]
    split <;> rfl

/-- C4 witness: instantiation at input "pw" (font 0) on a state with a set
wordmark and logo. -/
theorem SetExtraText_spec_witness :
    containsSubstr (resolveExtraText "pw") "Private" = true ∧
    ((SetExtraText "pw" 0 cmsStateExample).cmsText = "" ∧
     (SetExtraText "pw" 0 cmsStateExample).useCmsLogo = "") :=
  ⟨by decide, (SetExtraText_spec "pw" 0 cmsStateExample).2.2.1 (by decide)⟩

/-- C5: for every nonzero energy, `SetEnergy` produces "13 "/"13.6 " followed
by the unit when the value is within 0.001 of 13 resp. 13.6, and otherwise
prints the unsupported-value error and produces the "???? " placeholder
followed by the unit; being a total function it never throws. -/
theorem SetEnergy_spec (energy : ℚ) (unit : String) (h : energy ≠ 0) :
    (|energy - 13| < 1 / 1000 → SetEnergy energy unit = ("13 " ++ unit, false)) ∧
    (¬ |energy - 13| < 1 / 1000 → |energy - 68 / 5| < 1 / 1000 →
      SetEnergy energy unit = ("13.6 " ++ unit, false)) ∧
    (¬ |energy - 13| < 1 / 1000 → ¬ |energy - 68 / 5| < 1 / 1000 →
      SetEnergy energy unit = ("???? " ++ unit, true)) := by
  refine ⟨fun h13 => ?_, fun h13 h136 => ?_, fun h13 h136 => ?_⟩
  · simp only [SetEnergy]
    rw [if_neg h, if_pos h13]
  · simp only [SetEnergy]
    rw [if_neg h, if_neg h13, if_pos h136]
  · simp only [SetEnergy]
    rw [if_neg h, if_neg h13, if_neg h136]

/-- C5 witness: instantiation at energy 13 with unit "TeV". -/
theorem SetEnergy_spec_witness :
    (13 : ℚ) ≠ 0 ∧ |(13 : ℚ) - 13| < 1 / 1000 ∧
    SetEnergy 13 "TeV" = ("13 " ++ "TeV", false) :=
  ⟨by norm_num, by norm_num,
   (SetEnergy_spec 13 "TeV" (by norm_num)).1 (by norm_num)⟩

/-- Helper: a string of length zero is the empty string. -/
theorem string_of_length_zero {s : String} (h : s.length = 0) : s = "" := by
  cases s with
  | mk data =>
    cases data with
    | nil => rfl
    | cons c cs => simp [String.length] at h

/-- Helper: appending to the empty string is the identity. -/
theorem string_empty_append (s : String) : "" ++ s = s := by
  cases s
  rfl

/-- C6: for every non-negative luminosity, `SetLumi` composes the caption as
the run label, then ", " when a run label is present, then the value formatted
with fixed precision when `round_lumi` is in 0..2 and with the stream's
default precision otherwise, then a space, the unit and the marker
"^\x7b#minus1\x7d"; in particular precision 1, value 45, unit "fb", run "Run 3"
yields exactly "Run 3, 45.0 fb^\x7b#minus1\x7d". -/
theorem SetLumi_spec (lumi : ℚ) (unit run : String) (round_lumi : ℤ) (h : 0 ≤ lumi) :
    SetLumi lumi unit run round_lumi =
      run ++ (if 0 < run.length then ", " else "") ++ lumiValueStr lumi round_lumi ++
        " " ++ unit ++ "^\x7b#minus1\x7d" ∧
    (0 ≤ round_lumi ∧ round_lumi < 3 →
      lumiValueStr lumi round_lumi = formatFixed lumi round_lumi.toNat) ∧
    (¬ (0 ≤ round_lumi ∧ round_lumi < 3) →
      lumiValueStr lumi round_lumi = formatDefault lumi) ∧
    SetLumi 45 "fb" "Run 3" 1 = "Run 3, 45.0 fb^\x7b#minus1\x7d" := by
  refine ⟨?_, fun hr => ?_, fun hr => ?_, ?_⟩
  · simp only [SetLumi, if_pos h]
    by_cases hrun : 0 < run.length
    · rw [if_pos hrun, string_empty_append]
      simp only [String.append_assoc, if_pos hrun]
    · rw [if_neg hrun, string_of_length_zero (by omega : run.length = 0)]
      rw [show ("" : String).length = 0 from rfl]
      norm_num
      simp only [String.append_assoc]
  · simp only [lumiValueStr, if_pos hr]
  · simp only [lumiValueStr, if_neg hr]
  · simp only [SetLumi, lumiValueStr, formatFixed]
    rw [if_pos (show 0 < String.length "Run 3" by decide)]
    rw [if_pos (show (0:ℚ) ≤ 45 by norm_num)]
    rw [if_pos (show 0 < String.length ("" ++ "Run 3") by decide)]
    rw [if_pos (show (0:ℤ) ≤ 1 ∧ (1:ℤ) < 3 by decide)]
    rw [if_neg (show ¬ (45:ℚ) < 0 by norm_num)]
    rw [show ((1:ℤ).toNat) = 1 from rfl]
    rw [show ⌊(45:ℚ) * 10 ^ (1:ℕ) + 1 / 2⌋ = 450 by norm_num]
    decide

/-- C6 witness: instantiation at lumi 45 ≥ 0, unit "fb", run "Run 3",
precision 1. -/
theorem SetLumi_spec_witness :
    (0 : ℚ) ≤ 45 ∧
    SetLumi 45 "fb" "Run 3" 1 =
      "Run 3" ++ (if 0 < String.length "Run 3" then ", " else "") ++
        lumiValueStr 45 1 ++ " " ++ "fb" ++ "^\x7b#minus1\x7d" :=
  ⟨by norm_num, (SetLumi_spec 45 "fb" "Run 3" 1 (by norm_num)).1⟩

/-- C7 (code/source divergence): with four series, no explicit colors and the
fill-color configuration key, `buildTHStack` indexes the empty caller-supplied
`colors` vector out of bounds (undefined behaviour, modelled as `none`)
instead of reading the fetched curated set; with no configuration keys at all
it assigns no colors whatsoever — while the curated set for 4 series, the
6-color family, would indeed provide 6 distinct colors.  The fetched
`colorset` is never read by the rest of the function. -/
theorem buildTHStack_petroff_unused :
    buildTHStack [{}, {}, {}, {}] [] [("FillColor", 1)] = none ∧
    buildTHStack [{}, {}, {}, {}] [] [] = some [{}, {}, {}, {}] ∧
    (getPettroffColorSet 4).length = 6 ∧ (getPettroffColorSet 4).Nodup :=
  ⟨rfl, rfl, by decide, by decide⟩

/-- C8: when the lower-cased corner token is none of "tr"/"tl"/"bl"/"br", the
symbolic-corner `changeStatsBox` reports an error and returns the stats box
completely unmodified (edges and style properties untouched); when the pad has
no stats box at all, it reports an error and returns null instead of
crashing. -/
theorem changeStatsBoxCorner_rejects (pcanv : Pad) (token : String)
    (xscale yscale : ℚ) (confs : List (String × ℚ)) :
    (pcanv.statsBox = none →
      changeStatsBoxCorner pcanv token xscale yscale confs = (none, true)) ∧
    (∀ box, pcanv.statsBox = some box →
      strToLower token ∉ (["tr", "tl", "bl", "br"] : List String) →
      changeStatsBoxCorner pcanv token xscale yscale confs = (some box, true)) := by
  constructor
  · intro h
    simp only [changeStatsBoxCorner, h]
  · intro box h hnot
    simp only [List.mem_cons, List.not_mem_nil, or_false, not_or] at hnot
    obtain ⟨h1, h2, h3, h4⟩ := hnot
    simp only [changeStatsBoxCorner, h]
    rw [if_neg h1, if_neg h2, if_neg h3, if_neg h4]

/-- C8 witness: instantiation at a pad without a stats box and at a pad with
one together with the unrecognized token "center". -/
theorem changeStatsBoxCorner_rejects_witness :
    (padNoStats.statsBox = none ∧
     changeStatsBoxCorner padNoStats "tl" 1 1 [] = (none, true)) ∧
    (padWithStats.statsBox = some statsBoxExample ∧
     strToLower "center" ∉ (["tr", "tl", "bl", "br"] : List String) ∧
     changeStatsBoxCorner padWithStats "center" 1 1 [] = (some statsBoxExample, true)) :=
  ⟨⟨rfl, (changeStatsBoxCorner_rejects padNoStats "tl" 1 1 []).1 rfl⟩,
   ⟨rfl, by decide,
    (changeStatsBoxCorner_rejects padWithStats "center" 1 1 []).2 statsBoxExample rfl
      (by decide)⟩⟩

/-- C9: `CreateAlternativePalette` refills the cache with exactly 200
consecutive color indices and logs one gradient-table creation;
`SetAlternative2DColor` generates the palette only when the cache is empty,
and on a non-empty cache it reuses the cached table unchanged — in particular
its `alpha` argument has no effect on the result. -/
theorem alternativePalette_cache (alpha alpha2 : ℚ) (s : Palette2DState) :
    ((CreateAlternativePalette alpha s).usingPalette2D.length = 200 ∧
     (∀ i : ℕ, i + 1 < 200 →
       (CreateAlternativePalette alpha s).usingPalette2D[i + 1]? =
         ((CreateAlternativePalette alpha s).usingPalette2D[i]?).map (· + 1)) ∧
     (CreateAlternativePalette alpha s).gradientAlphas = s.gradientAlphas ++ [alpha]) ∧
    (s.usingPalette2D = [] →
      SetAlternative2DColor alpha s =
        (CreateAlternativePalette alpha s, (CreateAlternativePalette alpha s).usingPalette2D)) ∧
    (s.usingPalette2D ≠ [] →
      SetAlternative2DColor alpha s = (s, s.usingPalette2D) ∧
      SetAlternative2DColor alpha s = SetAlternative2DColor alpha2 s) := by
  refine ⟨⟨?_, fun i hi => ?_, rfl⟩, fun he => ?_, fun hne => ⟨?_, ?_⟩⟩
  · simp [CreateAlternativePalette]
  · simp only [CreateAlternativePalette, List.getElem?_map, List.getElem?_range hi,
      List.getElem?_range (by omega : i < 200), Option.map_some']
    push_cast
    ring_nf
  · simp only [SetAlternative2DColor, if_pos he]
  · simp only [SetAlternative2DColor, if_neg hne]
  · simp only [SetAlternative2DColor, if_neg hne]

/-- C9 witness: instantiation at a state with a non-empty palette cache and
two different alpha values. -/
theorem alternativePalette_cache_witness :
    paletteStateExample.usingPalette2D ≠ [] ∧
    SetAlternative2DColor (1 / 2) paletteStateExample =
      (paletteStateExample, paletteStateExample.usingPalette2D) :=
  ⟨by decide,
   ((alternativePalette_cache (1 / 2) (1 / 4) paletteStateExample).2.2 (by decide)).1⟩

/-- C10: the option string `cmsObjectDraw` actually draws with always contains
"SAME": the given option is used unchanged when it already contains "SAME" and
gets "SAME" prepended otherwise. -/
theorem cmsObjectDraw_spec (opt : String) :
    containsSubstr (cmsObjectDrawOpt opt) "SAME" = true ∧
    (containsSubstr opt "SAME" = true → cmsObjectDrawOpt opt = opt) ∧
    (containsSubstr opt "SAME" = false → cmsObjectDrawOpt opt = "SAME" ++ opt) := by
  refine ⟨?_, fun h => ?_, fun h => ?_⟩
  · by_cases h : containsSubstr opt "SAME" = true
    · simp [cmsObjectDrawOpt, h]
    · have hf : containsSubstr opt "SAME" = false := by simpa using h
      simp only [cmsObjectDrawOpt, hf, if_pos rfl]
      rw [containsSubstr, decide_eq_true_iff]
      exact ⟨[], opt.data, by simp [String.data_append]⟩
  · simp [cmsObjectDrawOpt, h]
  · simp [cmsObjectDrawOpt, h]

/-- C10 witness: instantiation at the option "HIST", which does not contain
"SAME". -/
theorem cmsObjectDraw_spec_witness :
    containsSubstr "HIST" "SAME" = false ∧ cmsObjectDrawOpt "HIST" = "SAME" ++ "HIST" :=
  ⟨by decide, (cmsObjectDraw_spec "HIST").2.2 (by decide)⟩

end cmsstyle
